import Mathlib

/-!
Verification of the connection and command multiplexing engine of
`bscpylgtv` (`src/bscpylgtv/webos_client.py`), a JSON-over-WebSocket
client for LG webOS appliances.

The Python code is shallowly embedded: JSON frames become the inductive
`Json`, Python dicts become association lists, and each method relevant
to the claims is transcribed as a pure function (stateful methods as
functions on an explicit `ClientState`; fallible code returns `Except`).
-/

set_option autoImplicit false

namespace WebOs

/-- JSON values, the payload type of every wire frame.  Mirrors what
`json.loads` can produce in the Python source (numbers restricted to
integers, which is all the claims touch). -/
inductive Json where
  | null
  | bool (b : Bool)
  | num (n : Int)
  | str (s : String)
  | arr (elems : List Json)
  | obj (fields : List (String × Json))
  deriving Repr, Inhabited

namespace Json

mutual

def decEq : (a b : Json) → Decidable (a = b)
  | null, null => isTrue rfl
  | bool a, bool b =>
    if h : a = b then isTrue (by rw [h]) else isFalse (by simp [h])
  | num a, num b =>
    if h : a = b then isTrue (by rw [h]) else isFalse (by simp [h])
  | str a, str b =>
    if h : a = b then isTrue (by rw [h]) else isFalse (by simp [h])
  | arr a, arr b =>
    match decEqArr a b with
    | isTrue h => isTrue (by rw [h])
    | isFalse h => isFalse (by simp [h])
  | obj a, obj b =>
    match decEqObj a b with
    | isTrue h => isTrue (by rw [h])
    | isFalse h => isFalse (by simp [h])
  | null, bool _ => isFalse (fun h => Json.noConfusion h)
  | null, num _ => isFalse (fun h => Json.noConfusion h)
  | null, str _ => isFalse (fun h => Json.noConfusion h)
  | null, arr _ => isFalse (fun h => Json.noConfusion h)
  | null, obj _ => isFalse (fun h => Json.noConfusion h)
  | bool _, null => isFalse (fun h => Json.noConfusion h)
  | bool _, num _ => isFalse (fun h => Json.noConfusion h)
  | bool _, str _ => isFalse (fun h => Json.noConfusion h)
  | bool _, arr _ => isFalse (fun h => Json.noConfusion h)
  | bool _, obj _ => isFalse (fun h => Json.noConfusion h)
  | num _, null => isFalse (fun h => Json.noConfusion h)
  | num _, bool _ => isFalse (fun h => Json.noConfusion h)
  | num _, str _ => isFalse (fun h => Json.noConfusion h)
  | num _, arr _ => isFalse (fun h => Json.noConfusion h)
  | num _, obj _ => isFalse (fun h => Json.noConfusion h)
  | str _, null => isFalse (fun h => Json.noConfusion h)
  | str _, bool _ => isFalse (fun h => Json.noConfusion h)
  | str _, num _ => isFalse (fun h => Json.noConfusion h)
  | str _, arr _ => isFalse (fun h => Json.noConfusion h)
  | str _, obj _ => isFalse (fun h => Json.noConfusion h)
  | arr _, null => isFalse (fun h => Json.noConfusion h)
  | arr _, bool _ => isFalse (fun h => Json.noConfusion h)
  | arr _, num _ => isFalse (fun h => Json.noConfusion h)
  | arr _, str _ => isFalse (fun h => Json.noConfusion h)
  | arr _, obj _ => isFalse (fun h => Json.noConfusion h)
  | obj _, null => isFalse (fun h => Json.noConfusion h)
  | obj _, bool _ => isFalse (fun h => Json.noConfusion h)
  | obj _, num _ => isFalse (fun h => Json.noConfusion h)
  | obj _, str _ => isFalse (fun h => Json.noConfusion h)
  | obj _, arr _ => isFalse (fun h => Json.noConfusion h)

def decEqArr : (a b : List Json) → Decidable (a = b)
  | [], [] => isTrue rfl
  | [], _ :: _ => isFalse (fun h => List.noConfusion h)
  | _ :: _, [] => isFalse (fun h => List.noConfusion h)
  | x :: xs, y :: ys =>
    match decEq x y with
    | isTrue h1 =>
      match decEqArr xs ys with
      | isTrue h2 => isTrue (by rw [h1, h2])
      | isFalse h2 => isFalse (by simp [h2])
    | isFalse h1 => isFalse (by simp [h1])

def decEqObj : (a b : List (String × Json)) → Decidable (a = b)
  | [], [] => isTrue rfl
  | [], _ :: _ => isFalse (fun h => List.noConfusion h)
  | _ :: _, [] => isFalse (fun h => List.noConfusion h)
  | (kx, vx) :: xs, (ky, vy) :: ys =>
    if hk : kx = ky then
      match decEq vx vy with
      | isTrue hv =>
        match decEqObj xs ys with
        | isTrue ht => isTrue (by rw [hk, hv, ht])
        | isFalse ht => isFalse (by simp [ht])
      | isFalse hv => isFalse (by simp [hv])
    else isFalse (by simp [hk])

end

instance : DecidableEq Json := decEq

/-- Decidable equality for `Except` results (used to evaluate concrete
runs of the fallible embedded functions). -/
instance {e a : Type} [DecidableEq e] [DecidableEq a] : DecidableEq (Except e a) := fun x y =>
  match x, y with
  | .ok u, .ok v =>
    if h : u = v then isTrue (by rw [h]) else isFalse (by simp [h])
  | .error u, .error v =>
    if h : u = v then isTrue (by rw [h]) else isFalse (by simp [h])
  | .ok _, .error _ => isFalse (fun h => Except.noConfusion h)
  | .error _, .ok _ => isFalse (fun h => Except.noConfusion h)

/-- Python truthiness of a JSON value (`bool(x)`): `None`, `False`, `0`,
`""`, `[]` and `{}` are falsy, everything else truthy. -/
def truthy : Json → Bool
  | null => false
  | bool b => b
  | num n => n != 0
  | str s => s != ""
  | arr elems => !elems.isEmpty
  | obj fields => !fields.isEmpty

/-- `d.get(k)` on a Python dict parsed from JSON: returns the value when
the key is present, and `None` otherwise.  A present JSON `null` value is
returned as `null`, which is exactly how Python returns `None` for it, so
`is None` tests cannot distinguish the two cases — matching the source.
On a non-dict the Python `.get` would not exist; the claims only apply it
to decoded frames, for which non-dicts never reach these call sites, and
we return `null` there. -/
def get : Json → String → Json
  | obj fields, k =>
    match fields.find? (fun p => p.1 = k) with
    | some p => p.2
    | none => null
  | _, _ => null

/-- `d[k]` on a Python dict: the value when present, a `KeyError`
otherwise (also a `TypeError` when the receiver is not a dict). -/
def index : Json → String → Except String Json
  | obj fields, k =>
    match fields.find? (fun p => p.1 = k) with
    | some p => .ok p.2
    | none => .error ("KeyError: " ++ k)
  | _, k => .error ("TypeError: not subscriptable at key " ++ k)

end Json

/-! ### Python dict operations over association lists

Python dicts preserve insertion order; assignment to an existing key
keeps its position, assignment to a fresh key appends, and `del` removes
the unique entry of the key. -/

/-- Lookup (`k in d` / `d.get(k)` as an `Option`). -/
def assocFind {α β : Type} [DecidableEq α] (d : List (α × β)) (k : α) : Option β :=
  match d with
  | [] => none
  | (k', v) :: t => if k' = k then some v else assocFind t k

/-- Assignment `d[k] = v`: replace in place when the key exists, append
otherwise. -/
def assocSet {α β : Type} [DecidableEq α] (d : List (α × β)) (k : α) (v : β) :
    List (α × β) :=
  match d with
  | [] => [(k, v)]
  | (k', v') :: t => if k' = k then (k, v) :: t else (k', v') :: assocSet t k v

/-- Deletion `del d[k]` (the caller checks presence; on an absent key the
Python statement raises `KeyError`). -/
def assocDel {α β : Type} [DecidableEq α] (d : List (α × β)) (k : α) :
    List (α × β) :=
  match d with
  | [] => []
  | (k', v') :: t => if k' = k then assocDel t k else (k', v') :: assocDel t k

/-- Lookup in a string-keyed Python dict (the mirrored `_power_state` dict),
returning `null` for an absent key like `dict.get`. -/
def dictGet (d : List (String × Json)) (k : String) : Json :=
  match assocFind d k with
  | some v => v
  | none => Json.null

/-! ### Error taxonomy

The exception classes of `webos_client.py`: `PyLGTVPairException`,
`PyLGTVCmdException`, `PyLGTVCmdError < PyLGTVCmdException`, and
`PyLGTVServiceNotFoundError < PyLGTVCmdError`; plus `asyncio.CancelledError`
(which on the supported Python versions derives from `BaseException`, not
`Exception`) and a constructor for transport-level errors raised by the
websocket library. -/
inductive PyErr where
  | pairException (msg : String)
  | cmdException (msg : String)
  | cmdError (response : Json)
  | serviceNotFoundError (error : Json)
  | cancelledError
  | transportError (msg : String)
  deriving DecidableEq, Repr

namespace PyErr

/-- Membership in the `PyLGTVCmdException` class hierarchy
(`PyLGTVCmdError` and `PyLGTVServiceNotFoundError` are subclasses). -/
def isCmdException : PyErr → Bool
  | cmdException _ => true
  | cmdError _ => true
  | serviceNotFoundError _ => true
  | _ => false

/-- Caught by `except (asyncio.CancelledError, PyLGTVCmdException)` in
`request` (source line 606). -/
def caughtBySendHandler : PyErr → Bool
  | cancelledError => true
  | e => e.isCmdException

/-- Caught by a bare `except Exception` handler: everything except
`asyncio.CancelledError`, which derives from `BaseException`. -/
def isExceptionSubclass : PyErr → Bool
  | cancelledError => false
  | _ => true

end PyErr

/-- The state of an `asyncio.Future` as far as the client observes it:
unresolved, resolved with a frame, or cancelled. -/
inductive FutState where
  | pending
  | done (msg : Json)
  | cancelled
  deriving DecidableEq, Repr

/-- `future.cancel()`: a pending future becomes cancelled, a finished one
is unaffected. -/
def FutState.cancel : FutState → FutState
  | .pending => .cancelled
  | s => s

/-- The mutable attributes of a `WebOsClient` instance that the claims
touch, as set up by `__init__` (source lines 46-93).  The two websocket
connections are tracked as open/closed booleans; pending requests
(`futures`) and subscription consumers (`callbacks`) are dicts keyed by
the JSON correlation identifier of the frame; consumers themselves are
abstracted as opaque numeric tokens. -/
structure ClientState where
  connection : Bool
  input_connection : Bool
  doStateUpdate : Bool
  command_count : Int
  callbacks : List (Json × Nat)
  futures : List (Json × FutState)
  power_state : List (String × Json)
  current_appId : Json
  muted : Json
  volume : Json
  current_channel : Json
  channel_info : Json
  channels : Json
  apps : List (Json × Json)
  extinputs : List (Json × Json)
  system_info : Json
  software_info : Json
  sound_output : Json
  picture_settings : Json
  deriving DecidableEq, Repr

/-- The attribute values assigned by `__init__`: no connections, empty
tables, every mirrored field at its unknown/default value. -/
def initialClientState : ClientState where
  connection := false
  input_connection := false
  doStateUpdate := false
  command_count := 0
  callbacks := []
  futures := []
  power_state := []
  current_appId := .null
  muted := .null
  volume := .null
  current_channel := .null
  channel_info := .null
  channels := .null
  apps := []
  extinputs := []
  system_info := .null
  software_info := .null
  sound_output := .null
  picture_settings := .null

/-- The derived accessor `is_on` (source lines 434-446): looks up the
`"state"` entry of the mirrored power-state dict; `"Unknown"` falls back
to whether a current app id is set; `None`, `"Power Off"`, `"Suspend"` and
`"Active Standby"` are off; anything else is on. -/
def is_on (st : ClientState) : Bool :=
  let state := dictGet st.power_state "state"
  if state = Json.str "Unknown" then
    if st.current_appId ∈ [Json.null, Json.str ""] then false else true
  else if state ∈ [Json.null, Json.str "Power Off", Json.str "Suspend",
      Json.str "Active Standby"] then false
  else true

/-- The state effects of the `finally` block of `connect_handler`
(source lines 265-298): cancel every outstanding future, drop both
websocket connections, clear the update flag, and reset every mirrored
field to its unknown/default value.  The `callbacks` and `futures` dicts
themselves are not cleared there (they are re-created at the start of the
next connection attempt). -/
def connect_teardown (s : ClientState) : ClientState :=
  { s with
    futures := s.futures.map (fun p => (p.1, p.2.cancel))
    connection := false
    input_connection := false
    doStateUpdate := false
    power_state := []
    current_appId := .null
    muted := .null
    volume := .null
    current_channel := .null
    channel_info := .null
    channels := .null
    apps := []
    extinputs := []
    system_info := .null
    software_info := .null
    sound_output := .null
    picture_settings := .null }

/-- Interpretation of a resolved reply frame by `request`
(source lines 617-634): missing payload is a protocol error; the
`returnValue`/`subscribed` flag is read with Python `or` semantics; an
error-typed reply raises `PyLGTVServiceNotFoundError` exactly for the
404 service-not-found error string and `PyLGTVCmdError` otherwise; a
missing flag is a protocol error, a falsy flag a request failure; and
otherwise the payload is returned. -/
def interpretReply (response : Json) : Except PyErr Json :=
  let payload := response.get "payload"
  if payload = Json.null then
    .error (.cmdException "Invalid request response")
  else
    let rv := payload.get "returnValue"
    let returnValue := if rv.truthy then rv else payload.get "subscribed"
    if response.get "type" = Json.str "error" then
      let error := response.get "error"
      if error = Json.str "404 no such service or method" then
        .error (.serviceNotFoundError error)
      else
        .error (.cmdError response)
    else if returnValue = Json.null then
      .error (.cmdException "Invalid request response")
    else if !returnValue.truthy then
      .error (.cmdException "Request failed with response")
    else
      .ok payload

/-- What happens at the two suspension points of one `request` call: the
send (`await self.command(...)`) either succeeds or raises, and the wait
on the pending future either resolves with a reply frame or is cancelled. -/
inductive AwaitOutcome where
  | sendRaises (e : PyErr)
  | cancelledWhileWaiting
  | reply (response : Json)
  deriving DecidableEq, Repr

/-- `WebOsClient.request` (source lines 597-634) as a state transformer:
allocate the identifier (fresh from `command_count` unless supplied),
register a pending future, send, and settle.  A send error of the caught
classes and a cancellation of the wait both delete the pending entry
before re-raising; a reply deletes the entry and is then interpreted by
`interpretReply`. -/
def request (st0 : ClientState) (uidArg : Option Int) (ev : AwaitOutcome) :
    ClientState × Except PyErr Json :=
  let alloc :=
    match uidArg with
    | none => (st0.command_count, { st0 with command_count := st0.command_count + 1 })
    | some u => (u, st0)
  let uid := alloc.1
  let st := alloc.2
  let key := Json.num uid
  let st := { st with futures := assocSet st.futures key FutState.pending }
  match ev with
  | .sendRaises e =>
    if e.caughtBySendHandler then
      ({ st with futures := assocDel st.futures key }, .error e)
    else
      (st, .error e)
  | .cancelledWhileWaiting =>
    let st :=
      if (assocFind st.futures key).isSome then
        { st with futures := assocDel st.futures key }
      else st
    (st, .error .cancelledError)
  | .reply response =>
    let st := { st with futures := assocDel st.futures key }
    (st, interpretReply response)

/-- `WebOsClient.subscribe` (source lines 636-647): allocate a fresh
identifier, register the consumer under it, then issue the initial
subscribe-typed request with that identifier; `except Exception` rolls
the registration back on every raise other than a cancellation (which is
not an `Exception` subclass) before re-raising. -/
def subscribe (st0 : ClientState) (cb : Nat) (ev : AwaitOutcome) :
    ClientState × Except PyErr Json :=
  let uid := st0.command_count
  let st := { st0 with command_count := st0.command_count + 1 }
  let key := Json.num uid
  let st := { st with callbacks := assocSet st.callbacks key cb }
  let out := request st (some uid) ev
  match out.2 with
  | .ok v => (out.1, .ok v)
  | .error e =>
    if e.isExceptionSubclass then
      ({ out.1 with callbacks := assocDel out.1.callbacks key }, .error e)
    else
      (out.1, .error e)

/-! ### Inbound dispatcher (`consumer_handler`) -/

/-- What one iteration of the dispatcher loop did with a frame. -/
inductive DispatchAction where
  | enqueued (uid : Json)
  | resolved (uid : Json)
  | dropped
  deriving DecidableEq, Repr

/-- The tables the dispatcher loop reads and writes: the consumer and
pending-future dicts (shared with the façade) and its local per-identifier
delivery queues. -/
structure DispatchState where
  callbacks : List (Json × Nat)
  futures : List (Json × FutState)
  queues : List (Json × List Json)
  deriving DecidableEq, Repr

/-- One iteration of the frame loop of `consumer_handler` (source lines
345-360): skip everything when both tables are empty; otherwise read the
frame identifier; a registered consumer gets the frame appended to its
(lazily created) queue; else a pending future for the identifier is
resolved with the frame; else the frame is dropped. -/
def consumer_step (st : DispatchState) (msg : Json) : DispatchState × DispatchAction :=
  if st.callbacks.isEmpty ∧ st.futures.isEmpty then
    (st, .dropped)
  else
    match assocFind st.callbacks (msg.get "id") with
    | some _ =>
      ({ st with queues :=
          match assocFind st.queues (msg.get "id") with
          | some q => assocSet st.queues (msg.get "id") (q ++ [msg])
          | none => assocSet st.queues (msg.get "id") [msg] },
        .enqueued (msg.get "id"))
    | none =>
      match assocFind st.futures (msg.get "id") with
      | some .pending =>
        ({ st with futures := assocSet st.futures (msg.get "id") (.done msg) },
          .resolved (msg.get "id"))
      | _ => (st, .dropped)

/-- The dispatcher loop over a whole inbound frame sequence, returning the
final tables and the per-frame actions in order. -/
def consumer_run (st : DispatchState) (msgs : List Json) :
    DispatchState × List DispatchAction :=
  match msgs with
  | [] => (st, [])
  | m :: ms =>
    let s1 := consumer_step st m
    let rest := consumer_run s1.1 ms
    (rest.1, s1.2 :: rest.2)

/-- Occurrences of a resolution of the given identifier in an action list. -/
def countResolved (uid : Json) : List DispatchAction → Nat
  | [] => 0
  | a :: t => (if a = .resolved uid then 1 else 0) + countResolved uid t

/-! ### Connection lifecycle: the Subscribing phase -/

/-- The eight baseline subscriptions named by the specification. -/
inductive BaselineSub where
  | power
  | currentApp
  | muted
  | volume
  | apps
  | inputs
  | soundOutput
  | pictureSettings
  deriving DecidableEq, Repr

/-- Everything the Subscribing→Ready phase produces: the client state it
leaves behind, the baseline subscriptions it issued, which background
tasks it started, and whether it signalled the connect caller with
success. -/
structure SubscribingOutcome where
  state : ClientState
  issued : List BaselineSub
  dispatcherStarted : Bool
  keepaliveStarted : Bool
  resultSignalled : Bool
  deriving DecidableEq, Repr

/-- The Subscribing→Ready phase of `connect_handler` (source lines
208-258), entered after a successful handshake: reset both routing
tables, start the consumer (dispatcher) task and, when a ping interval is
configured, the keepalive task, record the open connection, lower the
update flag; the set `subscribe_coros` is empty in this source — every
baseline `subscribe_...` call inside it is commented out — so no
subscription task is created and the `asyncio.wait` over them is skipped;
then a placeholder `Unknown` power state is installed if none is present,
the update flag is raised, and the connect caller future is resolved with
`True`. -/
def connect_subscribing_phase (s0 : ClientState) (ping_interval : Option Int) :
    SubscribingOutcome :=
  let s := { s0 with callbacks := [], futures := [] }
  let keepaliveStarted := ping_interval.isSome
  let s := { s with connection := true }
  let s := { s with doStateUpdate := false }
  let issued : List BaselineSub := []
  let s :=
    if s.power_state.isEmpty then
      { s with power_state := [("state", Json.str "Unknown")] }
    else s
  let s := { s with doStateUpdate := true }
  { state := s
    issued := issued
    dispatcherStarted := true
    keepaliveStarted := keepaliveStarted
    resultSignalled := true }

/-! ### Auxiliary input channel (`input_command`) -/

/-- The outcomes of the suspension points of one `input_command` call
(source lines 649-686): the one-shot request for the socket path, the
opening of the auxiliary websocket, and the write on it; plus whether the
auxiliary connection was already open and whether the connect-result
future is already done. -/
structure InputCmdEnv where
  input_connection_open : Bool
  request_outcome : Except PyErr Json
  connect_outcome : Except PyErr Unit
  send_outcome : Except PyErr Unit
  connect_result_done : Bool
  deriving Repr

/-- How an `input_command` call ends, together with whether the auxiliary
connection is open afterwards. -/
inductive InputCmdEffect where
  | sent
  | setOnConnectResult (e : PyErr)
  | swallowed (e : PyErr)
  | raisedToCaller (e : PyErr)
  deriving DecidableEq, Repr

/-- The `except Exception as ex` handler of `input_command` (source lines
684-686): an `Exception` is set on the connect-result future when that
future is not yet done and is otherwise dropped (there is no re-raise in
the handler); an exception that is not an `Exception` subclass (a
cancellation) is not caught and escapes to the caller. -/
def input_command_handle (done : Bool) (e : PyErr) (opened : Bool) :
    InputCmdEffect × Bool :=
  if e.isExceptionSubclass then
    if done then (.swallowed e, opened) else (.setOnConnectResult e, opened)
  else
    (.raisedToCaller e, opened)

/-- `WebOsClient.input_command` (source lines 649-686): lazily obtain the
socket path and open the auxiliary connection, then write the message;
every raise from those steps goes through `input_command_handle`. -/
def input_command (env : InputCmdEnv) : InputCmdEffect × Bool :=
  if env.input_connection_open then
    match env.send_outcome with
    | .ok _ => (.sent, true)
    | .error e => input_command_handle env.connect_result_done e true
  else
    match env.request_outcome with
    | .error e => input_command_handle env.connect_result_done e false
    | .ok _ =>
      match env.connect_outcome with
      | .error e => input_command_handle env.connect_result_done e false
      | .ok _ =>
        match env.send_outcome with
        | .ok _ => (.sent, true)
        | .error e => input_command_handle env.connect_result_done e true

/-! ### Volume stepping (`_volume_step`) -/

/-- The module constant naming the sound routes whose consecutive volume
steps must be separated by a delay (source line 23). -/
def SOUND_OUTPUTS_TO_DELAY_CONSECUTIVE_VOLUME_STEPS : List Json :=
  [Json.str "external_arc"]

/-- Which branch `_volume_step` takes. -/
inductive VolumeStepPlan where
  | guardedDelayed
  | plain
  deriving DecidableEq, Repr

/-- The branch condition of `_volume_step` (source lines 899-902): the
mutual-exclusion-plus-sleep path is taken exactly when the mirrored sound
output is in the delay set and a volume-step delay is configured. -/
def volume_step_plan (sound_output : Json) (volume_step_delay : Option Nat) :
    VolumeStepPlan :=
  if sound_output ∈ SOUND_OUTPUTS_TO_DELAY_CONSECUTIVE_VOLUME_STEPS
      ∧ volume_step_delay.isSome then
    .guardedDelayed
  else
    .plain

/-- The suspension events of one `_volume_step` call, in program order. -/
inductive VsEv where
  | acquire
  | send
  | reply
  | sleepEnd
  | release
  deriving DecidableEq, Repr

/-- The events one `_volume_step` call performs on each branch: the
guarded branch acquires `_volume_step_lock`, sends the request, receives
the reply, sleeps the configured delay and releases; the plain branch
performs the bare request with no lock and no sleep (source lines
903-908). -/
def volume_step_events : VolumeStepPlan → List VsEv
  | .guardedDelayed => [.acquire, .send, .reply, .sleepEnd, .release]
  | .plain => [.send, .reply]

/-- Timestamps of the suspension events of one guarded `_volume_step`
call. -/
structure VolStepTiming where
  acquire : Nat
  send : Nat
  reply : Nat
  sleepEnd : Nat
  release : Nat
  deriving DecidableEq, Repr

/-- Program order inside one guarded call: the lock is acquired before
the request is sent, the reply precedes the end of the sleep, and the
lock is released last. -/
def VolStepTiming.progOrder (t : VolStepTiming) : Prop :=
  t.acquire ≤ t.send ∧ t.send ≤ t.reply ∧ t.reply ≤ t.sleepEnd ∧ t.sleepEnd ≤ t.release

/-- Two concurrently issued guarded volume steps together with the
configured delay. -/
structure VolStepPair where
  fst : VolStepTiming
  snd : VolStepTiming
  delay : Nat
  deriving DecidableEq, Repr

/-- A schedule the event loop can actually produce for two guarded calls:
both calls respect program order, `asyncio.sleep(delay)` ends no earlier
than `delay` after the reply (the sleep sits between the reply and the
release inside the critical section), and `_volume_step_lock` serialises
the two critical sections. -/
def VolStepPair.Valid (p : VolStepPair) : Prop :=
  p.fst.progOrder ∧ p.snd.progOrder ∧
  p.fst.reply + p.delay ≤ p.fst.sleepEnd ∧
  p.snd.reply + p.delay ≤ p.snd.sleepEnd ∧
  (p.fst.release ≤ p.snd.acquire ∨ p.snd.release ≤ p.fst.acquire)

/-! ### Apps mirror consumer (`set_apps_state`) -/

/-- The loop body of the full-catalogue branch of `set_apps_state`
(source lines 540-542): `for app in apps: d[app["id"]] = app`, building
the dict from `d`; an app without an `"id"` raises `KeyError`. -/
def buildApps (d : List (Json × Json)) : List Json → Except String (List (Json × Json))
  | [] => .ok d
  | app :: rest =>
    match app.index "id" with
    | .ok i => buildApps (assocSet d i app) rest
    | .error e => .error e

/-- `WebOsClient.set_apps_state` (source lines 537-549) acting on the
mirrored apps dict: a payload whose `launchPoints` is not `None` rebuilds
the dict from scratch out of the listed apps keyed by their `"id"`;
otherwise `payload["change"]` and `payload["id"]` are read (`KeyError` if
absent), a `"removed"` change deletes that entry (`KeyError` if absent),
and any other change assigns the payload under that identifier. -/
def set_apps_state (apps0 : List (Json × Json)) (payload : Json) :
    Except String (List (Json × Json)) :=
  let lps := payload.get "launchPoints"
  if lps = Json.null then
    match payload.index "change" with
    | .error e => .error e
    | .ok change =>
      match payload.index "id" with
      | .error e => .error e
      | .ok app_id =>
        if change = Json.str "removed" then
          if (assocFind apps0 app_id).isSome then .ok (assocDel apps0 app_id)
          else .error ("KeyError in del")
        else .ok (assocSet apps0 app_id payload)
  else
    match lps with
    | Json.arr l => buildApps [] l
    | _ => .error "TypeError: not iterable"

/-! ### Volume setter (`set_volume`) -/

/-- Modelled from the spec: the command catalogue maps logical operation
names to service paths; the constant `ep.SET_VOLUME` lives in
`endpoints.py`, which is not under `src/`.  No claim depends on its
value. -/
def SET_VOLUME : String := "audio/setVolume"

/-- `WebOsClient.set_volume` (source lines 884-887): clamp the argument
from below at 0 and issue the set-volume request with the clamped value
as the `volume` field of the payload. -/
def set_volume_request (v : Int) : String × Json :=
  (SET_VOLUME, Json.obj [("volume", Json.num (max 0 v))])

/-! ## Theorems -/

/-! ### Association list lemmas -/

theorem assocFind_set_self {α β : Type} [DecidableEq α]
    (d : List (α × β)) (k : α) (v : β) : assocFind (assocSet d k v) k = some v := by
  induction d with
  | nil => simp [assocSet, assocFind]
  | cons p t ih =>
    obtain ⟨k', v'⟩ := p
    by_cases h : k' = k <;> simp [assocSet, assocFind, h, ih]

theorem assocFind_set_other {α β : Type} [DecidableEq α]
    (d : List (α × β)) (k k' : α) (v : β) (hne : k' ≠ k) :
    assocFind (assocSet d k v) k' = assocFind d k' := by
  have hne2 : k ≠ k' := Ne.symm hne
  induction d with
  | nil => simp [assocSet, assocFind, hne2]
  | cons p t ih =>
    obtain ⟨k₀, v₀⟩ := p
    by_cases h : k₀ = k
    · subst h
      simp [assocSet, assocFind, hne2]
    · simp [assocSet, assocFind, h, ih]

theorem assocFind_del_self {α β : Type} [DecidableEq α]
    (d : List (α × β)) (k : α) : assocFind (assocDel d k) k = none := by
  induction d with
  | nil => simp [assocDel, assocFind]
  | cons p t ih =>
    obtain ⟨k₀, v₀⟩ := p
    by_cases h : k₀ = k <;> simp [assocDel, assocFind, h, ih]

theorem assocFind_del_other {α β : Type} [DecidableEq α]
    (d : List (α × β)) (k k' : α) (hne : k' ≠ k) :
    assocFind (assocDel d k) k' = assocFind d k' := by
  have hne2 : k ≠ k' := Ne.symm hne
  induction d with
  | nil => simp [assocDel, assocFind]
  | cons p t ih =>
    obtain ⟨k₀, v₀⟩ := p
    by_cases h : k₀ = k
    · subst h
      simp [assocDel, assocFind, hne2, ih]
    · simp [assocDel, assocFind, h, ih]

theorem assocDel_of_not_mem {α β : Type} [DecidableEq α]
    (d : List (α × β)) (k : α) (h : assocFind d k = none) : assocDel d k = d := by
  induction d with
  | nil => simp [assocDel]
  | cons p t ih =>
    obtain ⟨k₀, v₀⟩ := p
    by_cases hk : k₀ = k
    · simp [assocFind, hk] at h
    · simp [assocFind, hk] at h
      simp [assocDel, hk, ih h]

theorem assocDel_set_fresh {α β : Type} [DecidableEq α]
    (d : List (α × β)) (k : α) (v : β) (h : assocFind d k = none) :
    assocDel (assocSet d k v) k = d := by
  induction d with
  | nil => simp [assocSet, assocDel]
  | cons p t ih =>
    obtain ⟨k₀, v₀⟩ := p
    by_cases hk : k₀ = k
    · simp [assocFind, hk] at h
    · simp [assocFind, hk] at h
      simp [assocSet, assocDel, hk, ih h, assocDel_of_not_mem t k h]

/-! ### C4: the derived power accessor -/

/-- C4: `is_on` returns `False` when the mirrored power state field
`"state"` is `"Power Off"`, `"Suspend"`, `"Active Standby"` or unset;
when the state is exactly `"Unknown"` it returns `True` iff the mirrored
current app id is neither `None` nor the empty string; and it returns
`True` for any other present state value. -/
theorem c4_is_on_spec (st : ClientState) :
    (dictGet st.power_state "state" ∈
        [Json.null, Json.str "Power Off", Json.str "Suspend", Json.str "Active Standby"] →
      is_on st = false)
    ∧ (dictGet st.power_state "state" = Json.str "Unknown" →
      (is_on st = true ↔ st.current_appId ∉ [Json.null, Json.str ""]))
    ∧ (dictGet st.power_state "state" ∉
        [Json.null, Json.str "Power Off", Json.str "Suspend", Json.str "Active Standby",
          Json.str "Unknown"] →
      is_on st = true) := by
  refine ⟨?_, ?_, ?_⟩
  · intro h
    have hne : dictGet st.power_state "state" ≠ Json.str "Unknown" := by
      intro he
      rw [he] at h
      exact absurd h (by decide)
    simp [is_on, hne, h]
  · intro h
    by_cases happ : st.current_appId ∈ [Json.null, Json.str ""]
    · simp [is_on, h, happ]
    · simp [is_on, h, happ]
  · intro h
    simp only [List.mem_cons, List.not_mem_nil, or_false, not_or] at h
    obtain ⟨h1, h2, h3, h4, h5⟩ := h
    simp [is_on, h1, h2, h3, h4, h5]

/-- Witness for C4 at a concrete mirrored state: an `"Unknown"` power
state with a current app present yields `is_on = true`. -/
theorem c4_is_on_spec_witness :
    is_on { initialClientState with
      power_state := [("state", Json.str "Unknown")]
      current_appId := Json.str "netflix" } = true :=
  ((c4_is_on_spec _).2.1 (by decide)).mpr (by decide)

/-! ### C5: teardown resets the mirror -/

/-- C5: after connection teardown — reached from a failed connect, a
mid-session transport failure, or an explicit disconnect, since
`connect_handler` runs it in its `finally` block — every mirrored field
equals the unknown/default value assigned by `__init__`, regardless of
the values held before teardown. -/
theorem c5_teardown_resets_mirror (s : ClientState) :
    (connect_teardown s).power_state = initialClientState.power_state
    ∧ (connect_teardown s).current_appId = initialClientState.current_appId
    ∧ (connect_teardown s).muted = initialClientState.muted
    ∧ (connect_teardown s).volume = initialClientState.volume
    ∧ (connect_teardown s).current_channel = initialClientState.current_channel
    ∧ (connect_teardown s).channel_info = initialClientState.channel_info
    ∧ (connect_teardown s).channels = initialClientState.channels
    ∧ (connect_teardown s).apps = initialClientState.apps
    ∧ (connect_teardown s).extinputs = initialClientState.extinputs
    ∧ (connect_teardown s).system_info = initialClientState.system_info
    ∧ (connect_teardown s).software_info = initialClientState.software_info
    ∧ (connect_teardown s).sound_output = initialClientState.sound_output
    ∧ (connect_teardown s).picture_settings = initialClientState.picture_settings :=
  ⟨rfl, rfl, rfl, rfl, rfl, rfl, rfl, rfl, rfl, rfl, rfl, rfl, rfl⟩

/-! ### C10: volume clamping -/

/-- C10: `set_volume` sends the set-volume request with the volume
clamped from below at 0 — a negative argument is sent as 0, a
non-negative argument is sent unchanged. -/
theorem c10_set_volume_clamped (v : Int) :
    (v < 0 → (set_volume_request v).2.get "volume" = Json.num 0)
    ∧ (0 ≤ v → (set_volume_request v).2.get "volume" = Json.num v) := by
  constructor
  · intro h
    have hm : max 0 v = 0 := by omega
    simp [set_volume_request, Json.get, hm]
  · intro h
    have hm : max 0 v = v := by omega
    simp [set_volume_request, Json.get, hm]

/-- Witness for C10 at the concrete arguments -5 (clamped to 0) and 7
(sent unchanged). -/
theorem c10_set_volume_clamped_witness :
    (set_volume_request (-5)).2.get "volume" = Json.num 0
    ∧ (set_volume_request 7).2.get "volume" = Json.num 7 :=
  ⟨(c10_set_volume_clamped (-5)).1 (by decide), (c10_set_volume_clamped 7).2 (by decide)⟩

/-! ### C1: the Subscribing phase -/

/-- Counterexample to C1: on a successful connection attempt the
Subscribing phase of this source issues no baseline subscriptions at all
— `subscribe_coros` is empty because every `subscribe_...` call in it is
commented out — yet it still signals the connect caller with success; in
particular the power-state subscription is not among the issued ones. -/
theorem c1_counterexample :
    (connect_subscribing_phase initialClientState (some 1)).resultSignalled = true
    ∧ (connect_subscribing_phase initialClientState (some 1)).issued = []
    ∧ BaselineSub.power ∉ (connect_subscribing_phase initialClientState (some 1)).issued :=
  ⟨rfl, rfl, by decide⟩

/-- C1 (amended): the Subscribing phase of `connect_handler` resets the
pending-request and subscription tables, starts the dispatcher (and the
keepalive monitor exactly when a ping interval is configured), issues no
baseline subscriptions (the subscription set in this source is empty),
installs a placeholder `Unknown` power state when none is mirrored,
marks the ready flag and signals the connect caller with success. -/
theorem c1_subscribing_phase (s0 : ClientState) (pi : Option Int) :
    (connect_subscribing_phase s0 pi).state.callbacks = []
    ∧ (connect_subscribing_phase s0 pi).state.futures = []
    ∧ (connect_subscribing_phase s0 pi).dispatcherStarted = true
    ∧ (connect_subscribing_phase s0 pi).keepaliveStarted = pi.isSome
    ∧ (connect_subscribing_phase s0 pi).issued = []
    ∧ (connect_subscribing_phase s0 pi).state.doStateUpdate = true
    ∧ (connect_subscribing_phase s0 pi).resultSignalled = true
    ∧ (s0.power_state = [] →
        (connect_subscribing_phase s0 pi).state.power_state =
          [("state", Json.str "Unknown")])
    ∧ (s0.power_state ≠ [] →
        (connect_subscribing_phase s0 pi).state.power_state = s0.power_state) := by
  by_cases h : s0.power_state = [] <;>
    simp [connect_subscribing_phase, h, apply_ite]

/-- Witness for C1 (amended) at the initial state with no keepalive
configured: the placeholder power state is installed. -/
theorem c1_subscribing_phase_witness :
    (connect_subscribing_phase initialClientState none).state.power_state =
      [("state", Json.str "Unknown")] :=
  (c1_subscribing_phase initialClientState none).2.2.2.2.2.2.2.1 rfl

/-! ### C2: the 404 service-not-found reply -/

/-- Counterexample to C2: the exact reply frame of the claim carries no
`payload` field, so `request` raises the generic protocol-error
`PyLGTVCmdException` (invalid request response) before ever reaching the
error-type dispatch, and not `PyLGTVServiceNotFoundError`. -/
theorem c2_counterexample :
    (request initialClientState none
        (.reply (Json.obj [("type", Json.str "error"),
          ("error", Json.str "404 no such service or method")]))).2
      = .error (.cmdException "Invalid request response")
    ∧ (request initialClientState none
        (.reply (Json.obj [("type", Json.str "error"),
          ("error", Json.str "404 no such service or method")]))).2
      ≠ .error (.serviceNotFoundError (Json.str "404 no such service or method")) :=
  ⟨by decide, by decide⟩

/-- C2 (amended): for every reply frame that does carry a payload, an
error-typed reply whose error string is the 404 no-such-service one makes
`request` raise the distinguished `PyLGTVServiceNotFoundError` — not the
generic `PyLGTVCmdError`; the payload-less frame of the claim instead
raises the generic invalid-response `PyLGTVCmdException`. -/
theorem c2_service_not_found (st : ClientState) (uidArg : Option Int) (resp : Json)
    (hp : resp.get "payload" ≠ Json.null)
    (ht : resp.get "type" = Json.str "error")
    (he : resp.get "error" = Json.str "404 no such service or method") :
    (request st uidArg (.reply resp)).2
      = .error (.serviceNotFoundError (Json.str "404 no such service or method")) := by
  cases uidArg <;> simp [request, interpretReply, hp, ht, he]

/-- Witness for C2 (amended): the 404 error frame with an (empty) payload
present resolves to the distinguished not-found error. -/
theorem c2_service_not_found_witness :
    (request initialClientState none
        (.reply (Json.obj [("type", Json.str "error"),
          ("error", Json.str "404 no such service or method"),
          ("payload", Json.obj [])]))).2
      = .error (.serviceNotFoundError (Json.str "404 no such service or method")) :=
  c2_service_not_found initialClientState none _ (by decide) (by decide) (by decide)

/-! ### C3: input_command failure routing -/

/-- Routing behaviour of the `except` handler of `input_command`: an
exception reaches the connect-result future only when that future is not
done, is swallowed only when it is done, and escapes to the caller only
when it is a cancellation. -/
theorem input_command_handle_spec (done : Bool) (e' : PyErr) (opened : Bool) :
    (∀ e, (input_command_handle done e' opened).1 = .setOnConnectResult e →
      done = false ∧ e.isExceptionSubclass = true)
    ∧ (∀ e, (input_command_handle done e' opened).1 = .swallowed e →
      done = true ∧ e.isExceptionSubclass = true)
    ∧ (∀ e, (input_command_handle done e' opened).1 = .raisedToCaller e →
      e = .cancelledError) := by
  by_cases hx : e'.isExceptionSubclass = true
  · cases done
    · refine ⟨?_, ?_, ?_⟩ <;> intro e h <;>
        simp [input_command_handle, hx] at h
      · exact ⟨rfl, h ▸ hx⟩
    · refine ⟨?_, ?_, ?_⟩ <;> intro e h <;>
        simp [input_command_handle, hx] at h
      · exact ⟨rfl, h ▸ hx⟩
  · have hce : e' = .cancelledError := by
      cases e' <;> simp_all [PyErr.isExceptionSubclass]
    refine ⟨?_, ?_, ?_⟩ <;> intro e h <;>
      simp [input_command_handle, hx] at h
    exact h ▸ hce.symm ▸ rfl

/-- Counterexample to C3: with the connect-result future already done, a
transport failure while opening the auxiliary input connection is
silently swallowed by `input_command` — its `except` handler has no
re-raise — rather than surfaced to the immediate caller as the claim
states. -/
theorem c3_counterexample :
    input_command
        { input_connection_open := false
          request_outcome := .error (.transportError "connection refused")
          connect_outcome := .ok ()
          send_outcome := .ok ()
          connect_result_done := true }
      = (.swallowed (.transportError "connection refused"), false)
    ∧ input_command
        { input_connection_open := false
          request_outcome := .error (.transportError "connection refused")
          connect_outcome := .ok ()
          send_outcome := .ok ()
          connect_result_done := true }
      ≠ (.raisedToCaller (.transportError "connection refused"), false) :=
  ⟨by decide, by decide⟩

/-- C3 (amended): every `Exception` raised while opening or writing the
auxiliary input connection is set on the original connect-result future
when that future is not yet done, and otherwise it is silently
suppressed — never surfaced to the immediate caller; only a cancellation
(not an `Exception` subclass) can propagate out of `input_command`. -/
theorem c3_input_command_routing (env : InputCmdEnv) :
    (∀ e, (input_command env).1 = .setOnConnectResult e →
      env.connect_result_done = false ∧ e.isExceptionSubclass = true)
    ∧ (∀ e, (input_command env).1 = .swallowed e →
      env.connect_result_done = true ∧ e.isExceptionSubclass = true)
    ∧ (∀ e, (input_command env).1 = .raisedToCaller e → e = .cancelledError) := by
  obtain ⟨iopen, reqo, cono, sendo, done⟩ := env
  cases iopen <;> cases reqo <;> cases cono <;> cases sendo <;>
    first
      | exact input_command_handle_spec done _ _
      | (refine ⟨?_, ?_, ?_⟩ <;> intro e h <;> exact absurd h (by simp [input_command]))

/-- Witness for C3 (amended): applying the routing theorem at a concrete
failing environment whose connect-result future is done. -/
theorem c3_input_command_routing_witness :
    ({ input_connection_open := false
       request_outcome := .error (.transportError "refused")
       connect_outcome := .ok ()
       send_outcome := .ok ()
       connect_result_done := true } : InputCmdEnv).connect_result_done = true
    ∧ (PyErr.transportError "refused").isExceptionSubclass = true :=
  (c3_input_command_routing _).2.1 (.transportError "refused") (by decide)

/-! ### C7: subscribe rollback -/

/-- `request` never touches the callbacks table, whatever happens at its
suspension points. -/
theorem request_callbacks_eq (st : ClientState) (uidArg : Option Int) (ev : AwaitOutcome) :
    (request st uidArg ev).1.callbacks = st.callbacks := by
  cases uidArg <;> cases ev <;>
    simp [request, apply_ite]

/-- C7: when the initial subscribe-typed request raises an error, the
consumer registration for the (freshly allocated, hence not previously
registered) identifier is removed from the callbacks table before the
error propagates, leaving the subscription table as it was before the
call.  A cancellation is not an `Exception` subclass on the supported
Python versions and is the one raise the rollback handler does not
catch. -/
theorem c7_subscribe_rollback (st : ClientState) (cb : Nat) (ev : AwaitOutcome) (e : PyErr)
    (hfresh : assocFind st.callbacks (Json.num st.command_count) = none)
    (hout : (subscribe st cb ev).2 = .error e)
    (hexc : e.isExceptionSubclass = true) :
    (subscribe st cb ev).1.callbacks = st.callbacks := by
  cases ev with
  | sendRaises e₀ =>
    by_cases hc : e₀.caughtBySendHandler = true <;>
      by_cases hx : e₀.isExceptionSubclass = true <;>
        simp_all [subscribe, request, apply_ite, assocDel_set_fresh _ _ _ hfresh]
  | cancelledWhileWaiting =>
    simp_all [subscribe, request, apply_ite, PyErr.isExceptionSubclass,
      assocDel_set_fresh _ _ _ hfresh]
  | reply resp =>
    rcases hir : interpretReply resp with e₀ | v
    · by_cases hx : e₀.isExceptionSubclass = true <;>
        simp_all [subscribe, request, apply_ite, assocDel_set_fresh _ _ _ hfresh]
    · simp_all [subscribe, request]

/-- Witness for C7: a not-connected send failure on a fresh client rolls
the registration back to the empty table. -/
theorem c7_subscribe_rollback_witness :
    (subscribe initialClientState 7 (.sendRaises (.cmdException "Not connected"))).1.callbacks
      = initialClientState.callbacks :=
  c7_subscribe_rollback initialClientState 7 _ (.cmdException "Not connected")
    (by decide) (by decide) (by decide)

/-! ### C8: serialised volume steps -/

/-- C8: the guarded branch of `_volume_step` is taken exactly when the
mirrored sound output is the delay-requiring route `"external_arc"` and a
volume-step delay is configured; in every schedule of two guarded calls
that the lock admits, the second call cannot send its request earlier
than the configured delay after the first call's reply; and the plain
branch involves no lock acquisition and no sleep. -/
theorem c8_volume_step_serialised :
    (∀ (so : Json) (d : Option Nat),
      volume_step_plan so d = .guardedDelayed ↔
        (so = Json.str "external_arc" ∧ d.isSome = true))
    ∧ (∀ p : VolStepPair, p.Valid → p.fst.send < p.snd.send →
        p.fst.reply + p.delay ≤ p.snd.send)
    ∧ VsEv.acquire ∉ volume_step_events .plain
    ∧ VsEv.sleepEnd ∉ volume_step_events .plain := by
  refine ⟨?_, ?_, by decide, by decide⟩
  · intro so d
    constructor
    · intro h
      by_cases hc : so ∈ SOUND_OUTPUTS_TO_DELAY_CONSECUTIVE_VOLUME_STEPS ∧ d.isSome = true
      · obtain ⟨h1, h2⟩ := hc
        simp only [SOUND_OUTPUTS_TO_DELAY_CONSECUTIVE_VOLUME_STEPS, List.mem_singleton] at h1
        exact ⟨h1, h2⟩
      · rw [volume_step_plan, if_neg] at h
        · cases h
        · simpa using hc
    · rintro ⟨h1, h2⟩
      simp [volume_step_plan, SOUND_OUTPUTS_TO_DELAY_CONSECUTIVE_VOLUME_STEPS, h1, h2]
  · rintro p ⟨⟨a1, a2, a3, a4⟩, ⟨b1, b2, b3, b4⟩, s1, s2, hmx | hmx⟩ hsend
    · omega
    · omega

/-- Witness for C8 at a concrete admissible schedule with delay 5: the
first call replies at 2, sleeps to 7, releases at 8; the second acquires
at 8 and sends at 9 ≥ 2 + 5.  The plan equivalence is instantiated at the
delay route with a configured delay. -/
theorem c8_volume_step_serialised_witness :
    volume_step_plan (Json.str "external_arc") (some 150) = .guardedDelayed
    ∧ (VolStepPair.mk ⟨0, 1, 2, 7, 8⟩ ⟨8, 9, 10, 15, 16⟩ 5).fst.reply
        + (VolStepPair.mk ⟨0, 1, 2, 7, 8⟩ ⟨8, 9, 10, 15, 16⟩ 5).delay
      ≤ (VolStepPair.mk ⟨0, 1, 2, 7, 8⟩ ⟨8, 9, 10, 15, 16⟩ 5).snd.send :=
  ⟨(c8_volume_step_serialised.1 _ _).mpr (by decide),
    c8_volume_step_serialised.2.1 _
      ⟨⟨by decide, by decide, by decide, by decide⟩,
        ⟨by decide, by decide, by decide, by decide⟩,
        by decide, by decide, Or.inl (by decide)⟩ (by decide)⟩

/-! ### C6: pending-request lifecycle -/

/-- A frame is dispatched as a resolution of an identifier only when that
identifier holds a pending future and no callback, and the resolution
marks the future done with the frame. -/
theorem consumer_step_resolved (st : DispatchState) (m : Json) (uid : Json)
    (h : (consumer_step st m).2 = .resolved uid) :
    assocFind st.futures uid = some .pending
    ∧ assocFind (consumer_step st m).1.futures uid = some (.done m) := by
  by_cases hg : st.callbacks.isEmpty = true ∧ st.futures.isEmpty = true
  · rw [consumer_step, if_pos hg] at h
    cases h
  · rw [consumer_step, if_neg hg] at h ⊢
    cases hcb : assocFind st.callbacks (m.get "id") with
    | some c =>
      rw [hcb] at h
      cases h
    | none =>
      rw [hcb] at h
      cases hf : assocFind st.futures (m.get "id") with
      | none =>
        rw [hf] at h
        cases h
      | some f =>
        rw [hf] at h
        cases f with
        | pending =>
          dsimp only at h
          cases h
          exact ⟨hf, assocFind_set_self _ _ _⟩
        | done m0 =>
          dsimp only at h
          cases h
        | cancelled =>
          dsimp only at h
          cases h

/-- A dispatcher step never turns a non-pending entry back into a pending
one. -/
theorem consumer_step_not_pending (st : DispatchState) (m : Json) (uid : Json)
    (h : assocFind st.futures uid ≠ some .pending) :
    assocFind (consumer_step st m).1.futures uid ≠ some .pending := by
  by_cases hg : st.callbacks.isEmpty = true ∧ st.futures.isEmpty = true
  · rw [consumer_step, if_pos hg]
    exact h
  · rw [consumer_step, if_neg hg]
    cases hcb : assocFind st.callbacks (m.get "id") with
    | some c => exact h
    | none =>
      cases hf : assocFind st.futures (m.get "id") with
      | none => exact h
      | some f =>
        cases f with
        | pending =>
          dsimp only
          by_cases he : m.get "id" = uid
          · subst he
            rw [assocFind_set_self]
            intro hx
            cases hx
          · rw [assocFind_set_other _ _ _ _ (Ne.symm he)]
            exact h
        | done m0 => exact h
        | cancelled => exact h

/-- Once an identifier no longer holds a pending future, no later frame
of the run resolves it. -/
theorem consumer_run_no_resolve (st : DispatchState) (msgs : List Json) (uid : Json)
    (h : assocFind st.futures uid ≠ some .pending) :
    countResolved uid (consumer_run st msgs).2 = 0 := by
  induction msgs generalizing st with
  | nil => rfl
  | cons m ms ih =>
    have h1 : (consumer_step st m).2 ≠ .resolved uid :=
      fun hr => h (consumer_step_resolved st m uid hr).1
    simp [consumer_run, countResolved, h1,
      ih (consumer_step st m).1 (consumer_step_not_pending st m uid h)]

/-- Over any run, each identifier is resolved at most once. -/
theorem consumer_run_resolve_once (st : DispatchState) (msgs : List Json) (uid : Json) :
    countResolved uid (consumer_run st msgs).2 ≤ 1 := by
  induction msgs generalizing st with
  | nil => simp [consumer_run, countResolved]
  | cons m ms ih =>
    by_cases hr : (consumer_step st m).2 = .resolved uid
    · have h2 := (consumer_step_resolved st m uid hr).2
      have hnp : assocFind (consumer_step st m).1.futures uid ≠ some .pending := by
        rw [h2]
        intro hx
        cases hx
      simp [consumer_run, countResolved, hr,
        consumer_run_no_resolve (consumer_step st m).1 ms uid hnp]
    · simp only [consumer_run, countResolved, if_neg hr, Nat.zero_add]
      exact ih (consumer_step st m).1

/-- C6: cancelling a request removes its pending entry from the futures
table before the cancellation propagates; the dispatcher leaves the
tables untouched and drops a frame whose identifier matches no registered
callback and no pending future (so a reply arriving after a cancellation
resolves nothing); and over any inbound frame sequence each identifier is
resolved at most once. -/
theorem c6_pending_request_lifecycle :
    (∀ (st : ClientState) (uidArg : Option Int),
      assocFind (request st uidArg .cancelledWhileWaiting).1.futures
          (Json.num (uidArg.getD st.command_count)) = none
      ∧ (request st uidArg .cancelledWhileWaiting).2 = .error .cancelledError)
    ∧ (∀ (st : DispatchState) (msg : Json),
      assocFind st.callbacks (msg.get "id") = none →
      assocFind st.futures (msg.get "id") ≠ some .pending →
      consumer_step st msg = (st, .dropped))
    ∧ (∀ (st : DispatchState) (msgs : List Json) (uid : Json),
      countResolved uid (consumer_run st msgs).2 ≤ 1) := by
  refine ⟨?_, ?_, fun st msgs uid => consumer_run_resolve_once st msgs uid⟩
  · intro st uidArg
    cases uidArg <;>
      simp [request, Option.getD, assocFind_set_self, assocFind_del_self]
  · intro st msg hcb hfut
    by_cases hg : st.callbacks.isEmpty = true ∧ st.futures.isEmpty = true
    · rw [consumer_step, if_pos hg]
    · rw [consumer_step, if_neg hg, hcb]
      cases hf : assocFind st.futures (msg.get "id") with
      | none => rfl
      | some f =>
        cases f with
        | pending => exact absurd hf hfut
        | done m0 => rfl
        | cancelled => rfl

/-- Witness for C6: a frame whose identifier holds only an
already-resolved future (the state after a resolution or a late reply
after cancellation) is dropped without touching the tables. -/
theorem c6_pending_request_lifecycle_witness :
    consumer_step
        { callbacks := []
          futures := [(Json.num 3, FutState.done Json.null)]
          queues := [] }
        (Json.obj [("id", Json.num 3)])
      = ({ callbacks := []
           futures := [(Json.num 3, FutState.done Json.null)]
           queues := [] }, .dropped) :=
  c6_pending_request_lifecycle.2.1 _ _ (by decide) (by decide)

/-! ### C9: the apps mirror consumer -/

/-- Every entry of a dict built by the full-catalogue loop either was
already in the starting dict or is one of the listed apps keyed by its
`"id"`. -/
theorem buildApps_find (l : List Json) (d res : List (Json × Json))
    (hb : buildApps d l = .ok res) (k v : Json)
    (hf : assocFind res k = some v) :
    assocFind d k = some v ∨ (v ∈ l ∧ v.index "id" = .ok k) := by
  induction l generalizing d with
  | nil =>
    cases hb
    exact Or.inl hf
  | cons a rest ih =>
    simp only [buildApps] at hb
    cases hi : a.index "id" with
    | error e =>
      rw [hi] at hb
      cases hb
    | ok i =>
      rw [hi] at hb
      rcases ih (assocSet d i a) hb with h | h
      · by_cases hk : i = k
        · subst hk
          rw [assocFind_set_self] at h
          injection h with hav
          subst hav
          exact Or.inr ⟨List.mem_cons_self a rest, hi⟩
        · rw [assocFind_set_other d i k a (Ne.symm hk)] at h
          exact Or.inl h
      · exact Or.inr ⟨List.mem_cons_of_mem a h.1, h.2⟩

/-- A key present before the full-catalogue loop is still present after
it. -/
theorem buildApps_present (l : List Json) (d res : List (Json × Json))
    (hb : buildApps d l = .ok res) (k : Json)
    (hk : (assocFind d k).isSome = true) : (assocFind res k).isSome = true := by
  induction l generalizing d with
  | nil =>
    cases hb
    exact hk
  | cons a rest ih =>
    simp only [buildApps] at hb
    cases hi : a.index "id" with
    | error e =>
      rw [hi] at hb
      cases hb
    | ok i =>
      rw [hi] at hb
      refine ih (assocSet d i a) hb ?_
      by_cases hik : i = k
      · subst hik
        rw [assocFind_set_self]
        rfl
      · rw [assocFind_set_other d i k a (Ne.symm hik)]
        exact hk

/-- Every listed app with an `"id"` ends up as a key of the dict built by
the full-catalogue loop. -/
theorem buildApps_key_of_mem (l : List Json) (d res : List (Json × Json))
    (hb : buildApps d l = .ok res) (a : Json) (ha : a ∈ l) (i : Json)
    (hi : a.index "id" = .ok i) : (assocFind res i).isSome = true := by
  induction ha generalizing d with
  | head rest =>
    simp only [buildApps] at hb
    rw [hi] at hb
    refine buildApps_present rest _ res hb i ?_
    rw [assocFind_set_self]
    rfl
  | tail b hmem ih =>
    simp only [buildApps] at hb
    cases hbi : b.index "id" with
    | error e =>
      rw [hbi] at hb
      cases hb
    | ok j =>
      rw [hbi] at hb
      exact ih _ hb

/-- C9: a delivery whose payload contains `launchPoints` replaces the
entire apps mapping — independently of the prior mapping — with one entry
per listed app keyed by its `"id"`; a delivery without `launchPoints`
whose `change` is `"removed"` deletes exactly the entry for the payload
identifier; any other incremental delivery upserts that identifier; and
the full catalogue of apps `a` and `b` followed by the incremental
removal of `a` leaves exactly the mapping for `b`. -/
theorem c9_set_apps_state :
    (∀ (d d' : List (Json × Json)) (payload : Json),
      payload.get "launchPoints" ≠ Json.null →
      set_apps_state d payload = set_apps_state d' payload)
    ∧ (∀ (d res : List (Json × Json)) (payload : Json) (l : List Json),
      payload.get "launchPoints" = Json.arr l →
      set_apps_state d payload = .ok res →
      (∀ k v, assocFind res k = some v → v ∈ l ∧ v.index "id" = .ok k)
      ∧ (∀ a ∈ l, ∀ i, a.index "id" = .ok i → (assocFind res i).isSome = true))
    ∧ (∀ (d : List (Json × Json)) (payload i : Json),
      payload.get "launchPoints" = Json.null →
      payload.index "change" = .ok (Json.str "removed") →
      payload.index "id" = .ok i →
      (assocFind d i).isSome = true →
      set_apps_state d payload = .ok (assocDel d i)
      ∧ assocFind (assocDel d i) i = none
      ∧ ∀ k, k ≠ i → assocFind (assocDel d i) k = assocFind d k)
    ∧ (∀ (d : List (Json × Json)) (payload i change : Json),
      payload.get "launchPoints" = Json.null →
      payload.index "change" = .ok change →
      change ≠ Json.str "removed" →
      payload.index "id" = .ok i →
      set_apps_state d payload = .ok (assocSet d i payload)
      ∧ assocFind (assocSet d i payload) i = some payload
      ∧ ∀ k, k ≠ i → assocFind (assocSet d i payload) k = assocFind d k)
    ∧ (set_apps_state []
        (Json.obj [("launchPoints", Json.arr
          [Json.obj [("id", Json.str "a")], Json.obj [("id", Json.str "b")]])])
        = .ok [(Json.str "a", Json.obj [("id", Json.str "a")]),
               (Json.str "b", Json.obj [("id", Json.str "b")])]
      ∧ set_apps_state
          [(Json.str "a", Json.obj [("id", Json.str "a")]),
           (Json.str "b", Json.obj [("id", Json.str "b")])]
          (Json.obj [("change", Json.str "removed"), ("id", Json.str "a")])
        = .ok [(Json.str "b", Json.obj [("id", Json.str "b")])]) := by
  refine ⟨?_, ?_, ?_, ?_, by decide, by decide⟩
  · intro d d' payload h
    simp [set_apps_state, h]
  · intro d res payload l hla hok
    rw [set_apps_state] at hok
    simp only [hla] at hok
    rw [if_neg (by simp)] at hok
    refine ⟨?_, ?_⟩
    · intro k v hf
      rcases buildApps_find l [] res hok k v hf with h | h
      · simp [assocFind] at h
      · exact h
    · intro a ha i hi
      exact buildApps_key_of_mem l [] res hok a ha i hi
  · intro d payload i hlp hc hid hpres
    refine ⟨?_, assocFind_del_self d i, fun k hk => assocFind_del_other d i k hk⟩
    simp [set_apps_state, hlp, hc, hid, hpres]
  · intro d payload i change hlp hc hne hid
    refine ⟨?_, assocFind_set_self d i payload,
      fun k hk => assocFind_set_other d i k payload hk⟩
    simp [set_apps_state, hlp, hc, hid, hne]

/-- Witness for C9: removing app `a` from the two-app mapping deletes
exactly its entry. -/
theorem c9_set_apps_state_witness :
    set_apps_state
        [(Json.str "a", Json.obj [("id", Json.str "a")]),
         (Json.str "b", Json.obj [("id", Json.str "b")])]
        (Json.obj [("change", Json.str "removed"), ("id", Json.str "a")])
      = .ok (assocDel
          [(Json.str "a", Json.obj [("id", Json.str "a")]),
           (Json.str "b", Json.obj [("id", Json.str "b")])] (Json.str "a")) :=
  (c9_set_apps_state.2.2.1 _ _ _ (by decide) (by decide) (by decide) (by decide)).1

end WebOs
